import Mathlib

/-!
Shallow embedding of `src/backend/main.py` (GamePathAI stub API gateway).

The source is a FastAPI application consisting of:
- startup configuration read from the process environment (`ENVIRONMENT`,
  `JWT_SECRET`, `API_KEYS`),
- eight declared GET routes returning literal JSON bodies,
- a GET catch-all route (`/` and `/{rest_of_path:path}`) returning a fixed
  fallback message,
- an `anti_redirect_middleware` setting six fixed response headers,
- a CORS middleware configured with allow-all origins, allow-all methods
  and headers, credentials allowed, and three exposed custom headers,
- a global exception handler converting any unhandled exception into a
  500 JSON response `{"message": "Erro interno: <text>"}`.

Middleware ordering follows the framework's assembly: the handler
registered for `Exception` lives on the outermost server-error layer;
each `add_middleware` call prepends, so the anti-redirect middleware
(registered by the decorator at line 80, after the CORS registration at
line 25) wraps the CORS layer, which wraps the router.  Consequently the
anti-redirect headers are set on every routed response and on every CORS
preflight response, while a propagating exception bypasses both
middlewares and reaches the server-error layer bare.

The CORS layer models the configured middleware's request-dependent
behavior: it does nothing when the request carries no `origin` header;
it answers a preflight (`OPTIONS` with `access-control-request-method`)
itself, before routing; otherwise it adds the permissive CORS response
headers, mirroring the explicit origin (plus `Vary: Origin`) when the
request carries a cookie.  Request header names are taken in their
lower-case wire form; the preflight's plain-text payload is modelled as
a JSON string node.

Exceptions are modelled as `Except String` (the `String` being the
exception's description, i.e. Python's `str(exc)`); every concrete handler
in the source is a total literal-returning function, so each is embedded
as an `Except.ok` of its literal body.
-/

namespace GamePathAI

/-- JSON values, enough to express every literal body in the source. -/
inductive Json where
  | str : String → Json
  | int : Int → Json
  | bool : Bool → Json
  | arr : List Json → Json
  | obj : List (String × Json) → Json
deriving Repr

/-- A process environment: variable-name / value pairs.  An absent pair is
an unset variable; a pair with value `""` is a variable set to the empty
string (Python's `os.getenv` distinguishes the two). -/
abbrev Env := List (String × String)

/-- `os.getenv(name, default)`: the first binding of `name`, else the default. -/
def getenv (env : Env) (name default : String) : String :=
  match env.lookup name with
  | some v => v
  | none => default

/-- Python's `str.split(",")` on the character level: splitting the empty
string yields `[""]`, and every separator ends one (possibly empty) field
and starts another.  Modelled here because the source calls the Python
string primitive directly. -/
def pySplitComma : List Char → List (List Char)
  | [] => [[]]
  | c :: cs =>
    if c = ',' then [] :: pySplitComma cs
    else
      match pySplitComma cs with
      | [] => [[c]]
      | g :: gs => (c :: g) :: gs

/-- `s.split(",")` for a Lean `String`. -/
def pySplit (s : String) : List String :=
  (pySplitComma s.data).map (fun l => String.mk l)

/-- The module-level configuration of `main.py`, read once at startup:
`ENVIRONMENT = os.getenv("ENVIRONMENT", "development")`,
`JWT_SECRET = os.getenv("JWT_SECRET", "dev-secret-key-for-gamepathai")`,
`API_KEYS = os.getenv("API_KEYS", "dev-api-key").split(",")`. -/
structure Config where
  ENVIRONMENT : String
  JWT_SECRET : String
  API_KEYS : List String
deriving Repr, DecidableEq

/-- Evaluate the module-level assignments of `main.py` on a startup
environment. -/
def loadConfig (env : Env) : Config :=
  { ENVIRONMENT := getenv env "ENVIRONMENT" "development"
    JWT_SECRET := getenv env "JWT_SECRET" "dev-secret-key-for-gamepathai"
    API_KEYS := pySplit (getenv env "API_KEYS" "dev-api-key") }

/-- An HTTP request as the application can observe it. -/
structure Request where
  method : String
  path : String
  query : String
  reqHeaders : List (String × String)
  reqBody : String
deriving Repr, DecidableEq

/-- An HTTP response: status code, headers (ordered name/value pairs), and
a JSON body (every response this application produces is JSON). -/
structure Response where
  status : Nat
  headers : List (String × String)
  body : Json
deriving Repr

/-- A `JSONResponse` with the given status code. -/
def jsonResponse (status : Nat) (body : Json) : Response :=
  { status := status, headers := [("content-type", "application/json")], body := body }

/-! ### Route handlers (each translated from the decorated function in the
source; the `Except String` layer is the ambient possibility of raising an
exception, which none of them uses). -/

/-- `GET /health`. -/
def health (cfg : Config) : Except String Json :=
  .ok (.obj [("status", .str "healthy"), ("version", .str "1.0.0"),
             ("environment", .str cfg.ENVIRONMENT)])

/-- `GET /api/health`. -/
def api_health (cfg : Config) : Except String Json :=
  .ok (.obj [("status", .str "healthy"), ("version", .str "1.0.0"),
             ("environment", .str cfg.ENVIRONMENT)])

/-- `GET /games` and `GET /api/games`. -/
def games : Except String Json :=
  .ok (.arr
    [ .obj [("id", .str "valorant"), ("name", .str "Valorant"), ("isOptimized", .bool false)]
    , .obj [("id", .str "csgo"), ("name", .str "Counter-Strike 2"), ("isOptimized", .bool true)]
    , .obj [("id", .str "fortnite"), ("name", .str "Fortnite"), ("isOptimized", .bool false)] ])

/-- `GET /ml/game-detection`. -/
def ml_game_detection : Except String Json :=
  .ok (.arr
    [ .obj [("id", .str "valorant"), ("name", .str "Valorant"), ("isDetected", .bool true)]
    , .obj [("id", .str "csgo"), ("name", .str "Counter-Strike 2"), ("isDetected", .bool true)] ])

/-- `GET /api/metrics/ping`. -/
def metrics_ping : Except String Json :=
  .ok (.obj [("value", .int 35), ("unit", .str "ms"),
             ("timestamp", .str "2025-05-05T12:00:00Z")])

/-- `GET /api/metrics/jitter`. -/
def metrics_jitter : Except String Json :=
  .ok (.obj [("value", .int 5), ("unit", .str "ms"),
             ("timestamp", .str "2025-05-05T12:00:00Z")])

/-- `GET /api/metrics/system`. -/
def metrics_system : Except String Json :=
  .ok (.obj [("cpu", .int 45), ("memory", .int 60), ("gpu", .int 50),
             ("timestamp", .str "2025-05-05T12:00:00Z")])

/-- `GET /` and `GET /{rest_of_path:path}`: the fallback for unmatched
paths.  The path parameter is bound but never used. -/
def catch_all (rest_of_path : String := "") : Except String Json :=
  let _ := rest_of_path
  .ok (.obj [("message", .str "Esta rota deve ser servida pelo frontend")])

/-- The value the `{rest_of_path:path}` parameter receives: the path with
its leading slash stripped, and `""` for the bare `/` route. -/
def restOfPath (path : String) : String :=
  if path = "/" then "" else path.drop 1

/-- The eight exactly-matched declared paths, in registration order. -/
def declaredPaths : List String :=
  ["/health", "/api/health", "/games", "/api/games", "/ml/game-detection",
   "/api/metrics/ping", "/api/metrics/jitter", "/api/metrics/system"]

/-- Path dispatch for a GET request: first exact route to match wins, and
the wildcard catch-all absorbs everything else. -/
def dispatch (cfg : Config) (req : Request) : Except String Json :=
  if req.path = "/health" then health cfg
  else if req.path = "/api/health" then api_health cfg
  else if req.path = "/games" then games
  else if req.path = "/api/games" then games
  else if req.path = "/ml/game-detection" then ml_game_detection
  else if req.path = "/api/metrics/ping" then metrics_ping
  else if req.path = "/api/metrics/jitter" then metrics_jitter
  else if req.path = "/api/metrics/system" then metrics_system
  else catch_all (restOfPath req.path)

/-- The routing layer's response when a path matches a route but the
method is not among the route's methods.  Every route in the source is
registered with `@app.get` only, and the catch-all matches every path, so
every non-GET request receives this. -/
def methodNotAllowed : Response :=
  jsonResponse 405 (.obj [("detail", .str "Method Not Allowed")])

/-- The routing layer: GET requests are dispatched on the path, a
successful handler body becomes a 200 JSON response, a raised exception
propagates outward; any other method is rejected with 405 by the router
itself (so the rejection is an ordinary response, not an exception). -/
def routerApp (cfg : Config) (req : Request) : Except String Response :=
  if req.method = "GET" then
    match dispatch cfg req with
    | .ok j => .ok (jsonResponse 200 j)
    | .error e => .error e
  else
    .ok methodNotAllowed

/-! ### Middleware stack. -/

/-- `response.headers[name] = value`: any existing occurrence of the name
is removed and the new pair is appended. -/
def setHeader (hs : List (String × String)) (name value : String) : List (String × String) :=
  hs.filter (fun p => p.1 ≠ name) ++ [(name, value)]

/-- The six header assignments performed by `anti_redirect_middleware`, in
source order. -/
def antiRedirectHeaders (hs : List (String × String)) : List (String × String) :=
  setHeader (setHeader (setHeader (setHeader (setHeader (setHeader hs
    "X-No-Redirect" "1")
    "Cache-Control" "no-cache, no-store, must-revalidate")
    "Pragma" "no-cache")
    "Expires" "0")
    "X-Content-Type-Options" "nosniff")
    "X-Frame-Options" "DENY"

/-- `anti_redirect_middleware`: awaits the inner application and sets the
six headers on its response.  An exception raised below it propagates
through, so the header-setting lines never run for it. -/
def anti_redirect_middleware (inner : Request → Except String Response) (req : Request) :
    Except String Response :=
  match inner req with
  | .ok r => .ok { r with headers := antiRedirectHeaders r.headers }
  | .error e => .error e

/-- The methods the configured CORS layer accepts in a preflight:
`allow_methods=["*"]` expands to the full standard-method list. -/
def allMethods : List String :=
  ["DELETE", "GET", "HEAD", "OPTIONS", "PATCH", "POST", "PUT"]

/-- A request is a CORS preflight when it carries an `origin` header, its
method is `OPTIONS`, and it carries an `access-control-request-method`
header; such a request is answered by the CORS layer itself, before
routing. -/
def IsPreflight (req : Request) : Prop :=
  (req.reqHeaders.lookup "origin").isSome = true ∧
  req.method = "OPTIONS" ∧
  (req.reqHeaders.lookup "access-control-request-method").isSome = true

instance (req : Request) : Decidable (IsPreflight req) := by
  unfold IsPreflight
  infer_instance

/-- The headers of a preflight answer under this configuration: explicit
allowed origin (credentials are allowed, so the origin is mirrored, with
`Vary: Origin`), the expanded method list, the max-age, credentials, and —
since all request headers are allowed — an echo of the requested
headers when present. -/
def preflightHeaders (origin : String) (requestedHeaders : Option String) :
    List (String × String) :=
  let hs := [("Vary", "Origin"),
             ("Access-Control-Allow-Methods", "DELETE, GET, HEAD, OPTIONS, PATCH, POST, PUT"),
             ("Access-Control-Max-Age", "600"),
             ("Access-Control-Allow-Credentials", "true"),
             ("Access-Control-Allow-Origin", origin)]
  match requestedHeaders with
  | some rh => setHeader hs "Access-Control-Allow-Headers" rh
  | none => hs

/-- The CORS layer's own answer to a preflight: a plain-text 200 "OK"
when the requested method is allowed (here: any standard method), and a
plain-text 400 otherwise; it never reaches the router. -/
def preflight_response (origin requestedMethod : String)
    (requestedHeaders : Option String) : Response :=
  { status := if requestedMethod ∈ allMethods then 200 else 400
    headers := preflightHeaders origin requestedHeaders ++
      [("content-type", "text/plain; charset=utf-8")]
    body := if requestedMethod ∈ allMethods then .str "OK"
            else .str "Disallowed CORS method" }

/-- Whether the request carries a cookie (which forces the CORS layer to
mirror the explicit origin instead of `*`). -/
def hasCookie (req : Request) : Bool :=
  (req.reqHeaders.lookup "cookie").isSome

/-- The CORS response headers added to an ordinary (non-preflight)
response to a request bearing an `origin` header: allow-origin `*`,
credentials, the three exposed custom headers; with a cookie present the
explicit origin is mirrored and `Vary: Origin` is added. -/
def simple_cors_headers (origin : String) (cookie : Bool)
    (hs : List (String × String)) : List (String × String) :=
  let hs1 := setHeader hs "Access-Control-Allow-Origin" "*"
  let hs2 := setHeader hs1 "Access-Control-Allow-Credentials" "true"
  let hs3 := setHeader hs2 "Access-Control-Expose-Headers"
      "X-Original-Location, X-Redirect-Blocked, X-Request-Path"
  if cookie then
    setHeader (setHeader hs3 "Access-Control-Allow-Origin" origin) "Vary" "Origin"
  else hs3

/-- The CORS middleware layer as configured in the source
(`allow_origins=["*"]`, `allow_credentials=True`, `allow_methods=["*"]`,
`allow_headers=["*"]`, three exposed headers): pass-through without an
`origin` request header; self-answered preflights; otherwise the simple
CORS headers on the inner response, with exceptions propagating. -/
def cors_middleware (inner : Request → Except String Response) (req : Request) :
    Except String Response :=
  match req.reqHeaders.lookup "origin" with
  | none => inner req
  | some origin =>
    if req.method = "OPTIONS" ∧
        (req.reqHeaders.lookup "access-control-request-method").isSome = true then
      .ok (preflight_response origin
        ((req.reqHeaders.lookup "access-control-request-method").getD "")
        (req.reqHeaders.lookup "access-control-request-headers"))
    else
      match inner req with
      | .ok r => .ok { r with headers := simple_cors_headers origin (hasCookie req) r.headers }
      | .error e => .error e

/-- `global_exception_handler`: a raised exception becomes a 500
`JSONResponse` with body `{"message": "Erro interno: <str(exc)>"}`. -/
def global_exception_handler (exc : String) : Response :=
  jsonResponse 500 (.obj [("message", .str ("Erro interno: " ++ exc))])

/-- The server-error layer: the outermost layer of the stack, which
invokes the registered `Exception` handler when anything below it raises,
and otherwise passes the response through unchanged. -/
def server_error_middleware (inner : Request → Except String Response) (req : Request) :
    Response :=
  match inner req with
  | .ok r => r
  | .error e => global_exception_handler e

/-- The assembled middleware stack, outermost first: server-error
handler, anti-redirect headers (registered last, hence outermost of the
user middlewares), CORS, then the inner application. -/
def middlewareStack (inner : Request → Except String Response) (req : Request) : Response :=
  server_error_middleware (anti_redirect_middleware (cors_middleware inner)) req

/-- The whole application, as a function of the startup environment and
the incoming request. -/
def app (env : Env) (req : Request) : Response :=
  middlewareStack (routerApp (loadConfig env)) req

/-- A GET request to `path` with arbitrary query string, request headers
and request body. -/
def getReq (path query : String) (hs : List (String × String)) (b : String) : Request :=
  { method := "GET", path := path, query := query, reqHeaders := hs, reqBody := b }

/-- All values carried by headers named `name` in a response, in order. -/
def headerValues (r : Response) (name : String) : List String :=
  (r.headers.filter (fun p => p.1 = name)).map (fun p => p.2)

/-! ### Helper lemmas. -/

theorem dispatch_ok (cfg : Config) (req : Request) : ∃ j, dispatch cfg req = .ok j := by
  unfold dispatch
  repeat' split
  all_goals exact ⟨_, rfl⟩

theorem routerApp_cases (cfg : Config) (req : Request) :
    (∃ j, routerApp cfg req = .ok (jsonResponse 200 j)) ∨
      routerApp cfg req = .ok methodNotAllowed := by
  unfold routerApp
  split
  · obtain ⟨j, hj⟩ := dispatch_ok cfg req
    rw [hj]
    exact .inl ⟨j, rfl⟩
  · exact .inr rfl

theorem routerApp_ok (cfg : Config) (req : Request) : ∃ r, routerApp cfg req = .ok r := by
  rcases routerApp_cases cfg req with ⟨j, hj⟩ | hj
  · exact ⟨_, hj⟩
  · exact ⟨_, hj⟩

theorem filter_setHeader_self (hs : List (String × String)) (n v : String) :
    (setHeader hs n v).filter (fun p => p.1 = n) = [(n, v)] := by
  unfold setHeader
  rw [List.filter_append]
  have h1 : (hs.filter (fun p => p.1 ≠ n)).filter (fun p => p.1 = n) = [] := by
    induction hs with
    | nil => rfl
    | cons a t ih =>
      by_cases ha : a.1 = n
      · simp [List.filter_cons, ha, ih]
      · simp [List.filter_cons, ha, ih]
  rw [h1]
  simp

theorem filter_setHeader_other (hs : List (String × String)) (n v m : String) (hmn : m ≠ n) :
    (setHeader hs n v).filter (fun p => p.1 = m) = hs.filter (fun p => p.1 = m) := by
  unfold setHeader
  rw [List.filter_append]
  have h2 : ([(n, v)] : List (String × String)).filter (fun p => p.1 = m) = [] := by
    simp [hmn.symm]
  rw [h2, List.append_nil, List.filter_filter]
  apply List.filter_congr
  intro a _
  by_cases ham : a.1 = m
  · have han : a.1 ≠ n := by rw [ham]; exact hmn
    simp [ham, han, hmn]
  · simp [ham]

theorem antiRedirect_filter_noRedirect (hs : List (String × String)) :
    (antiRedirectHeaders hs).filter (fun p => p.1 = "X-No-Redirect") =
      [("X-No-Redirect", "1")] := by
  unfold antiRedirectHeaders
  rw [filter_setHeader_other _ _ _ _ (by decide), filter_setHeader_other _ _ _ _ (by decide),
    filter_setHeader_other _ _ _ _ (by decide), filter_setHeader_other _ _ _ _ (by decide),
    filter_setHeader_other _ _ _ _ (by decide)]
  exact filter_setHeader_self _ _ _

theorem antiRedirect_filter_cacheControl (hs : List (String × String)) :
    (antiRedirectHeaders hs).filter (fun p => p.1 = "Cache-Control") =
      [("Cache-Control", "no-cache, no-store, must-revalidate")] := by
  unfold antiRedirectHeaders
  rw [filter_setHeader_other _ _ _ _ (by decide), filter_setHeader_other _ _ _ _ (by decide),
    filter_setHeader_other _ _ _ _ (by decide), filter_setHeader_other _ _ _ _ (by decide)]
  exact filter_setHeader_self _ _ _

theorem antiRedirect_filter_pragma (hs : List (String × String)) :
    (antiRedirectHeaders hs).filter (fun p => p.1 = "Pragma") = [("Pragma", "no-cache")] := by
  unfold antiRedirectHeaders
  rw [filter_setHeader_other _ _ _ _ (by decide), filter_setHeader_other _ _ _ _ (by decide),
    filter_setHeader_other _ _ _ _ (by decide)]
  exact filter_setHeader_self _ _ _

theorem antiRedirect_filter_expires (hs : List (String × String)) :
    (antiRedirectHeaders hs).filter (fun p => p.1 = "Expires") = [("Expires", "0")] := by
  unfold antiRedirectHeaders
  rw [filter_setHeader_other _ _ _ _ (by decide), filter_setHeader_other _ _ _ _ (by decide)]
  exact filter_setHeader_self _ _ _

theorem antiRedirect_filter_contentTypeOptions (hs : List (String × String)) :
    (antiRedirectHeaders hs).filter (fun p => p.1 = "X-Content-Type-Options") =
      [("X-Content-Type-Options", "nosniff")] := by
  unfold antiRedirectHeaders
  rw [filter_setHeader_other _ _ _ _ (by decide)]
  exact filter_setHeader_self _ _ _

theorem antiRedirect_filter_frameOptions (hs : List (String × String)) :
    (antiRedirectHeaders hs).filter (fun p => p.1 = "X-Frame-Options") =
      [("X-Frame-Options", "DENY")] := by
  unfold antiRedirectHeaders
  exact filter_setHeader_self _ _ _

theorem preflight_response_status (o m : String) (rh : Option String) :
    (preflight_response o m rh).status = 200 ∨ (preflight_response o m rh).status = 400 := by
  unfold preflight_response
  dsimp only
  split
  · exact .inl rfl
  · exact .inr rfl

theorem cors_router_ok (cfg : Config) (req : Request) :
    ∃ r, cors_middleware (routerApp cfg) req = .ok r ∧
      (r.status = 200 ∨ r.status = 405 ∨ r.status = 400) := by
  unfold cors_middleware
  rcases ho : req.reqHeaders.lookup "origin" with _ | origin <;> simp only [ho]
  · rcases routerApp_cases cfg req with ⟨j, hj⟩ | hj <;> rw [hj]
    · exact ⟨_, rfl, .inl rfl⟩
    · exact ⟨_, rfl, .inr (.inl rfl)⟩
  · split
    · refine ⟨_, rfl, ?_⟩
      rcases preflight_response_status origin
          ((req.reqHeaders.lookup "access-control-request-method").getD "")
          (req.reqHeaders.lookup "access-control-request-headers") with h | h
      · exact .inl h
      · exact .inr (.inr h)
    · rcases routerApp_cases cfg req with ⟨j, hj⟩ | hj <;> rw [hj]
      · exact ⟨_, rfl, .inl rfl⟩
      · exact ⟨_, rfl, .inr (.inl rfl)⟩

theorem app_eq (env : Env) (req : Request) :
    ∃ r, cors_middleware (routerApp (loadConfig env)) req = .ok r ∧
      app env req = { r with headers := antiRedirectHeaders r.headers } ∧
      (r.status = 200 ∨ r.status = 405 ∨ r.status = 400) := by
  obtain ⟨r, hr, hst⟩ := cors_router_ok (loadConfig env) req
  refine ⟨r, hr, ?_, hst⟩
  unfold app middlewareStack server_error_middleware anti_redirect_middleware
  rw [hr]

theorem app_status_cases (env : Env) (req : Request) :
    (app env req).status = 200 ∨ (app env req).status = 405 ∨
      (app env req).status = 400 := by
  obtain ⟨r, -, he, hst⟩ := app_eq env req
  rw [he]
  exact hst

theorem app_router_passthrough (env : Env) (req : Request) {r : Response}
    (hnp : ¬ IsPreflight req) (hr : routerApp (loadConfig env) req = .ok r) :
    (app env req).status = r.status ∧ (app env req).body = r.body := by
  have hc : ∃ hs2, cors_middleware (routerApp (loadConfig env)) req =
      .ok { r with headers := hs2 } := by
    unfold cors_middleware
    rcases ho : req.reqHeaders.lookup "origin" with _ | origin <;> simp only [ho]
    · rw [hr]
      exact ⟨r.headers, rfl⟩
    · rw [if_neg fun hc' => hnp ⟨by rw [ho]; rfl, hc'.1, hc'.2⟩, hr]
      exact ⟨_, rfl⟩
  obtain ⟨hs2, hc⟩ := hc
  unfold app middlewareStack server_error_middleware anti_redirect_middleware
  rw [hc]
  exact ⟨rfl, rfl⟩

theorem getReq_not_preflight (p q : String) (hs : List (String × String)) (b : String) :
    ¬ IsPreflight (getReq p q hs b) := by
  intro h
  obtain ⟨-, h21, -⟩ := h
  simp [getReq] at h21

theorem app_six_headers (env : Env) (req : Request) :
    headerValues (app env req) "X-No-Redirect" = ["1"] ∧
    headerValues (app env req) "Cache-Control" = ["no-cache, no-store, must-revalidate"] ∧
    headerValues (app env req) "Pragma" = ["no-cache"] ∧
    headerValues (app env req) "Expires" = ["0"] ∧
    headerValues (app env req) "X-Content-Type-Options" = ["nosniff"] ∧
    headerValues (app env req) "X-Frame-Options" = ["DENY"] := by
  obtain ⟨r, -, he, -⟩ := app_eq env req
  rw [he]
  refine ⟨?_, ?_, ?_, ?_, ?_, ?_⟩ <;>
    simp [headerValues, antiRedirect_filter_noRedirect, antiRedirect_filter_cacheControl,
      antiRedirect_filter_pragma, antiRedirect_filter_expires,
      antiRedirect_filter_contentTypeOptions, antiRedirect_filter_frameOptions]

theorem pySplitComma_ne_nil (l : List Char) : pySplitComma l ≠ [] := by
  induction l with
  | nil => simp [pySplitComma]
  | cons c cs ih =>
    unfold pySplitComma
    split
    · simp
    · split <;> simp

theorem pySplit_ne_nil (s : String) : pySplit s ≠ [] := by
  unfold pySplit
  intro h
  exact pySplitComma_ne_nil s.data (List.map_eq_nil_iff.mp h)

/-! ### Claims. -/

/-- C1: every supported declared GET route (`/health`, `/api/health`,
`/games`, `/api/games`, `/ml/game-detection`, `/api/metrics/ping`,
`/api/metrics/jitter`, `/api/metrics/system`) answers with status 200 and
exactly the literal fixture of the source, for any startup environment and
any query string, request headers, and request body: ping has value 35 and
unit "ms", jitter value 5, system cpu 45 / memory 60 / gpu 50, the games
list has exactly the 3 stated records, the detection list the 2 stated
records, and the health bodies carry the startup `ENVIRONMENT` value. -/
theorem C1_declared_routes_literal_fixtures (env : Env) (q : String)
    (hs : List (String × String)) (b : String) :
    ((app env (getReq "/health" q hs b)).status = 200 ∧
      (app env (getReq "/health" q hs b)).body =
        .obj [("status", .str "healthy"), ("version", .str "1.0.0"),
              ("environment", .str (getenv env "ENVIRONMENT" "development"))]) ∧
    ((app env (getReq "/api/health" q hs b)).status = 200 ∧
      (app env (getReq "/api/health" q hs b)).body =
        .obj [("status", .str "healthy"), ("version", .str "1.0.0"),
              ("environment", .str (getenv env "ENVIRONMENT" "development"))]) ∧
    ((app env (getReq "/games" q hs b)).status = 200 ∧
      (app env (getReq "/games" q hs b)).body =
        .arr [ .obj [("id", .str "valorant"), ("name", .str "Valorant"),
                     ("isOptimized", .bool false)]
             , .obj [("id", .str "csgo"), ("name", .str "Counter-Strike 2"),
                     ("isOptimized", .bool true)]
             , .obj [("id", .str "fortnite"), ("name", .str "Fortnite"),
                     ("isOptimized", .bool false)] ]) ∧
    ((app env (getReq "/api/games" q hs b)).status = 200 ∧
      (app env (getReq "/api/games" q hs b)).body =
        .arr [ .obj [("id", .str "valorant"), ("name", .str "Valorant"),
                     ("isOptimized", .bool false)]
             , .obj [("id", .str "csgo"), ("name", .str "Counter-Strike 2"),
                     ("isOptimized", .bool true)]
             , .obj [("id", .str "fortnite"), ("name", .str "Fortnite"),
                     ("isOptimized", .bool false)] ]) ∧
    ((app env (getReq "/ml/game-detection" q hs b)).status = 200 ∧
      (app env (getReq "/ml/game-detection" q hs b)).body =
        .arr [ .obj [("id", .str "valorant"), ("name", .str "Valorant"),
                     ("isDetected", .bool true)]
             , .obj [("id", .str "csgo"), ("name", .str "Counter-Strike 2"),
                     ("isDetected", .bool true)] ]) ∧
    ((app env (getReq "/api/metrics/ping" q hs b)).status = 200 ∧
      (app env (getReq "/api/metrics/ping" q hs b)).body =
        .obj [("value", .int 35), ("unit", .str "ms"),
              ("timestamp", .str "2025-05-05T12:00:00Z")]) ∧
    ((app env (getReq "/api/metrics/jitter" q hs b)).status = 200 ∧
      (app env (getReq "/api/metrics/jitter" q hs b)).body =
        .obj [("value", .int 5), ("unit", .str "ms"),
              ("timestamp", .str "2025-05-05T12:00:00Z")]) ∧
    ((app env (getReq "/api/metrics/system" q hs b)).status = 200 ∧
      (app env (getReq "/api/metrics/system" q hs b)).body =
        .obj [("cpu", .int 45), ("memory", .int 60), ("gpu", .int 50),
              ("timestamp", .str "2025-05-05T12:00:00Z")]) := by
  have t1 := app_router_passthrough env (getReq "/health" q hs b)
    (getReq_not_preflight _ _ _ _) rfl
  have t2 := app_router_passthrough env (getReq "/api/health" q hs b)
    (getReq_not_preflight _ _ _ _) rfl
  have t3 := app_router_passthrough env (getReq "/games" q hs b)
    (getReq_not_preflight _ _ _ _) rfl
  have t4 := app_router_passthrough env (getReq "/api/games" q hs b)
    (getReq_not_preflight _ _ _ _) rfl
  have t5 := app_router_passthrough env (getReq "/ml/game-detection" q hs b)
    (getReq_not_preflight _ _ _ _) rfl
  have t6 := app_router_passthrough env (getReq "/api/metrics/ping" q hs b)
    (getReq_not_preflight _ _ _ _) rfl
  have t7 := app_router_passthrough env (getReq "/api/metrics/jitter" q hs b)
    (getReq_not_preflight _ _ _ _) rfl
  have t8 := app_router_passthrough env (getReq "/api/metrics/system" q hs b)
    (getReq_not_preflight _ _ _ _) rfl
  exact ⟨⟨t1.1, t1.2⟩, ⟨t2.1, t2.2⟩, ⟨t3.1, t3.2⟩, ⟨t4.1, t4.2⟩,
    ⟨t5.1, t5.2⟩, ⟨t6.1, t6.2⟩, ⟨t7.1, t7.2⟩, ⟨t8.1, t8.2⟩⟩

/-- C2: a GET request whose path matches none of the declared routes gets
status 200 (never 404) with body
`{"message": "Esta rota deve ser servida pelo frontend"}`; the body is the
same constant for every such path, so it does not depend on the matched
path segment. -/
theorem C2_catch_all_absorbs_unmatched (env : Env) (req : Request)
    (hm : req.method = "GET") (hp : req.path ∉ declaredPaths) :
    (app env req).status = 200 ∧
      (app env req).body =
        .obj [("message", .str "Esta rota deve ser servida pelo frontend")] := by
  simp only [declaredPaths, List.mem_cons, List.not_mem_nil, or_false, not_or] at hp
  obtain ⟨d1, d2, d3, d4, d5, d6, d7, d8⟩ := hp
  have hnp : ¬ IsPreflight req := by
    intro hpre
    obtain ⟨-, h21, -⟩ := hpre
    rw [hm] at h21
    exact absurd h21 (by decide)
  have hr : routerApp (loadConfig env) req =
      .ok (jsonResponse 200
        (.obj [("message", .str "Esta rota deve ser servida pelo frontend")])) := by
    unfold routerApp dispatch
    rw [if_pos hm, if_neg d1, if_neg d2, if_neg d3, if_neg d4, if_neg d5,
      if_neg d6, if_neg d7, if_neg d8]
    rfl
  exact ⟨(app_router_passthrough env req hnp hr).1, (app_router_passthrough env req hnp hr).2⟩

theorem C2_catch_all_absorbs_unmatched_witness :
    (app [] (getReq "/totally/unknown" "" [] "")).status = 200 ∧
      (app [] (getReq "/totally/unknown" "" [] "")).body =
        .obj [("message", .str "Esta rota deve ser servida pelo frontend")] :=
  C2_catch_all_absorbs_unmatched [] (getReq "/totally/unknown" "" [] "") rfl (by decide)

/-- C3: every response the application produces — for any startup
environment, any method, and any path, hence any resulting status —
carries the six anti-redirect headers, each exactly once with exactly its
literal value. -/
theorem C3_six_headers_on_every_response (env : Env) (req : Request) :
    headerValues (app env req) "X-No-Redirect" = ["1"] ∧
    headerValues (app env req) "Cache-Control" = ["no-cache, no-store, must-revalidate"] ∧
    headerValues (app env req) "Pragma" = ["no-cache"] ∧
    headerValues (app env req) "Expires" = ["0"] ∧
    headerValues (app env req) "X-Content-Type-Options" = ["nosniff"] ∧
    headerValues (app env req) "X-Frame-Options" = ["DENY"] :=
  app_six_headers env req

/-- C4: when an exception is raised during a request's handling — the
request reaches the inner application (it is not a CORS preflight, which
the CORS layer answers before any handler can run) and the inner
application raises — the middleware stack produces exactly the global
exception handler's response: status 500 with JSON body
`{"message": "Erro interno: <text>"}` where `<text>` is the exception's
description — never a non-JSON error page. -/
theorem C4_unhandled_exception_becomes_500 (inner : Request → Except String Response)
    (req : Request) (e : String) (hnp : ¬ IsPreflight req) (h : inner req = .error e) :
    middlewareStack inner req =
      jsonResponse 500 (.obj [("message", .str ("Erro interno: " ++ e))]) := by
  have hc : cors_middleware inner req = .error e := by
    unfold cors_middleware
    rcases ho : req.reqHeaders.lookup "origin" with _ | origin <;> simp only [ho]
    · exact h
    · rw [if_neg fun hc' => hnp ⟨by rw [ho]; rfl, hc'.1, hc'.2⟩, h]
  unfold middlewareStack server_error_middleware anti_redirect_middleware
  rw [hc]
  rfl

theorem C4_unhandled_exception_becomes_500_witness :
    middlewareStack (fun _ => .error "boom") (getReq "/health" "" [] "") =
      jsonResponse 500 (.obj [("message", .str ("Erro interno: " ++ "boom"))]) :=
  C4_unhandled_exception_becomes_500 (fun _ => .error "boom") (getReq "/health" "" [] "")
    "boom" (by decide) rfl

/-- C5: `/health` and `/api/health` return identical bodies
`{"status": "healthy", "version": "1.0.0", "environment": E}` where `E` is
the startup `ENVIRONMENT` value (default `"development"`); two startups
whose `ENVIRONMENT` values differ yield different health bodies, while the
response is a function of the startup environment alone. -/
theorem C5_health_reflects_startup_environment (env env' : Env) (q : String)
    (hs : List (String × String)) (b : String)
    (hne : getenv env "ENVIRONMENT" "development" ≠ getenv env' "ENVIRONMENT" "development") :
    (app env (getReq "/health" q hs b)).body = (app env (getReq "/api/health" q hs b)).body ∧
    (app env (getReq "/health" q hs b)).body =
      .obj [("status", .str "healthy"), ("version", .str "1.0.0"),
            ("environment", .str (getenv env "ENVIRONMENT" "development"))] ∧
    (app env (getReq "/health" q hs b)).body ≠ (app env' (getReq "/health" q hs b)).body := by
  have h1 := app_router_passthrough env (getReq "/health" q hs b)
    (getReq_not_preflight _ _ _ _) rfl
  have h2 := app_router_passthrough env (getReq "/api/health" q hs b)
    (getReq_not_preflight _ _ _ _) rfl
  have h3 := app_router_passthrough env' (getReq "/health" q hs b)
    (getReq_not_preflight _ _ _ _) rfl
  refine ⟨h1.2.trans h2.2.symm, h1.2, ?_⟩
  intro hcontra
  have hb : Json.obj [("status", .str "healthy"), ("version", .str "1.0.0"),
        ("environment", .str (getenv env "ENVIRONMENT" "development"))] =
      Json.obj [("status", .str "healthy"), ("version", .str "1.0.0"),
        ("environment", .str (getenv env' "ENVIRONMENT" "development"))] :=
    h1.2.symm.trans (hcontra.trans h3.2)
  apply hne
  simpa using hb

theorem C5_health_reflects_startup_environment_witness :
    (app [("ENVIRONMENT", "production")] (getReq "/health" "" [] "")).body =
        (app [("ENVIRONMENT", "production")] (getReq "/api/health" "" [] "")).body ∧
    (app [("ENVIRONMENT", "production")] (getReq "/health" "" [] "")).body =
      .obj [("status", .str "healthy"), ("version", .str "1.0.0"),
            ("environment", .str (getenv [("ENVIRONMENT", "production")]
              "ENVIRONMENT" "development"))] ∧
    (app [("ENVIRONMENT", "production")] (getReq "/health" "" [] "")).body ≠
      (app [] (getReq "/health" "" [] "")).body :=
  C5_health_reflects_startup_environment [("ENVIRONMENT", "production")] [] "" [] ""
    (by decide)

/-- C6 (counterexample): the claim that two GET requests to the same path
produce identical responses regardless of their request headers is false
of the program: a `GET /games` request bearing an `origin` header
receives the CORS allow-origin response header, while the same request
without one does not, so the two responses differ. -/
theorem C6_counterexample :
    app [] { method := "GET", path := "/games", query := "",
             reqHeaders := [("origin", "http://a.example")], reqBody := "" } ≠
    app [] { method := "GET", path := "/games", query := "",
             reqHeaders := [], reqBody := "" } := by
  intro h
  exact absurd (congrArg (fun r => headerValues r "Access-Control-Allow-Origin") h)
    (by decide)

/-- C6 (amended): for any two GET requests to the same path, the response
status, the response body, and the values of the six anti-redirect
headers are identical regardless of query strings, request headers, or
request bodies; only the CORS reflection headers may differ, because the
configured CORS layer reacts to the request's `origin` and `cookie`
headers. -/
theorem C6_response_content_independent_of_request (env : Env) (r1 r2 : Request)
    (h1 : r1.method = "GET") (h2 : r2.method = "GET") (hp : r1.path = r2.path) :
    (app env r1).status = (app env r2).status ∧
    (app env r1).body = (app env r2).body ∧
    headerValues (app env r1) "X-No-Redirect" = headerValues (app env r2) "X-No-Redirect" ∧
    headerValues (app env r1) "Cache-Control" = headerValues (app env r2) "Cache-Control" ∧
    headerValues (app env r1) "Pragma" = headerValues (app env r2) "Pragma" ∧
    headerValues (app env r1) "Expires" = headerValues (app env r2) "Expires" ∧
    headerValues (app env r1) "X-Content-Type-Options" =
      headerValues (app env r2) "X-Content-Type-Options" ∧
    headerValues (app env r1) "X-Frame-Options" =
      headerValues (app env r2) "X-Frame-Options" := by
  rcases r1 with ⟨m1, p1, q1, hs1, b1⟩
  rcases r2 with ⟨m2, p2, q2, hs2, b2⟩
  simp only at h1 h2 hp
  subst h1 h2 hp
  obtain ⟨r, hr⟩ := routerApp_ok (loadConfig env) ⟨"GET", p1, q1, hs1, b1⟩
  have hr2 : routerApp (loadConfig env) ⟨"GET", p1, q2, hs2, b2⟩ = .ok r := hr
  have hnp1 : ¬ IsPreflight ⟨"GET", p1, q1, hs1, b1⟩ := by
    intro h
    obtain ⟨-, h21, -⟩ := h
    simp at h21
  have hnp2 : ¬ IsPreflight ⟨"GET", p1, q2, hs2, b2⟩ := by
    intro h
    obtain ⟨-, h21, -⟩ := h
    simp at h21
  have hA := app_router_passthrough env ⟨"GET", p1, q1, hs1, b1⟩ hnp1 hr
  have hB := app_router_passthrough env ⟨"GET", p1, q2, hs2, b2⟩ hnp2 hr2
  have s1 := app_six_headers env ⟨"GET", p1, q1, hs1, b1⟩
  have s2 := app_six_headers env ⟨"GET", p1, q2, hs2, b2⟩
  exact ⟨hA.1.trans hB.1.symm, hA.2.trans hB.2.symm,
    s1.1.trans s2.1.symm, s1.2.1.trans s2.2.1.symm, s1.2.2.1.trans s2.2.2.1.symm,
    s1.2.2.2.1.trans s2.2.2.2.1.symm, s1.2.2.2.2.1.trans s2.2.2.2.2.1.symm,
    s1.2.2.2.2.2.trans s2.2.2.2.2.2.symm⟩

theorem C6_response_content_independent_of_request_witness :
    (app [] ⟨"GET", "/games", "a=1",
        [("origin", "http://a.example"), ("cookie", "sid=1")], "payload"⟩).status =
      (app [] ⟨"GET", "/games", "", [], ""⟩).status ∧
    (app [] ⟨"GET", "/games", "a=1",
        [("origin", "http://a.example"), ("cookie", "sid=1")], "payload"⟩).body =
      (app [] ⟨"GET", "/games", "", [], ""⟩).body ∧
    headerValues (app [] ⟨"GET", "/games", "a=1",
        [("origin", "http://a.example"), ("cookie", "sid=1")], "payload"⟩) "X-No-Redirect" =
      headerValues (app [] ⟨"GET", "/games", "", [], ""⟩) "X-No-Redirect" ∧
    headerValues (app [] ⟨"GET", "/games", "a=1",
        [("origin", "http://a.example"), ("cookie", "sid=1")], "payload"⟩) "Cache-Control" =
      headerValues (app [] ⟨"GET", "/games", "", [], ""⟩) "Cache-Control" ∧
    headerValues (app [] ⟨"GET", "/games", "a=1",
        [("origin", "http://a.example"), ("cookie", "sid=1")], "payload"⟩) "Pragma" =
      headerValues (app [] ⟨"GET", "/games", "", [], ""⟩) "Pragma" ∧
    headerValues (app [] ⟨"GET", "/games", "a=1",
        [("origin", "http://a.example"), ("cookie", "sid=1")], "payload"⟩) "Expires" =
      headerValues (app [] ⟨"GET", "/games", "", [], ""⟩) "Expires" ∧
    headerValues (app [] ⟨"GET", "/games", "a=1",
        [("origin", "http://a.example"), ("cookie", "sid=1")], "payload"⟩)
        "X-Content-Type-Options" =
      headerValues (app [] ⟨"GET", "/games", "", [], ""⟩) "X-Content-Type-Options" ∧
    headerValues (app [] ⟨"GET", "/games", "a=1",
        [("origin", "http://a.example"), ("cookie", "sid=1")], "payload"⟩) "X-Frame-Options" =
      headerValues (app [] ⟨"GET", "/games", "", [], ""⟩) "X-Frame-Options" :=
  C6_response_content_independent_of_request []
    ⟨"GET", "/games", "a=1", [("origin", "http://a.example"), ("cookie", "sid=1")], "payload"⟩
    ⟨"GET", "/games", "", [], ""⟩ rfl rfl rfl

/-- C7: the `JWT_SECRET` and `API_KEYS` values never influence any
response: two startups differing arbitrarily in those two variables
produce identical responses to every request, and no request is ever
rejected with 401 or 403 for lacking a key or secret. -/
theorem C7_secrets_never_influence_responses (env : Env) (js1 js2 ak1 ak2 : String)
    (req : Request) :
    app (("JWT_SECRET", js1) :: ("API_KEYS", ak1) :: env) req =
      app (("JWT_SECRET", js2) :: ("API_KEYS", ak2) :: env) req ∧
    (app (("JWT_SECRET", js1) :: ("API_KEYS", ak1) :: env) req).status ≠ 401 ∧
    (app (("JWT_SECRET", js1) :: ("API_KEYS", ak1) :: env) req).status ≠ 403 := by
  refine ⟨rfl, ?_, ?_⟩ <;>
  · rcases app_status_cases (("JWT_SECRET", js1) :: ("API_KEYS", ak1) :: env) req
      with h | h | h <;> simp [h]

/-- C8 (counterexample): the claim that every non-GET request is rejected
by the routing layer with a method-not-allowed response is false of the
program: a CORS preflight — `OPTIONS` with `origin` and
`access-control-request-method` headers — is answered with status 200 and
plain-text body "OK" by the CORS layer before routing, because
`allow_methods=["*"]` accepts every standard method. -/
theorem C8_counterexample :
    (app [] ⟨"OPTIONS", "/games", "",
        [("origin", "http://site.example"), ("access-control-request-method", "POST")],
        ""⟩).status = 200 ∧
    (app [] ⟨"OPTIONS", "/games", "",
        [("origin", "http://site.example"), ("access-control-request-method", "POST")],
        ""⟩).status ≠ 405 ∧
    (app [] ⟨"OPTIONS", "/games", "",
        [("origin", "http://site.example"), ("access-control-request-method", "POST")],
        ""⟩).body = .str "OK" :=
  ⟨rfl, by decide, rfl⟩

/-- C8 (amended): every route, the catch-all included, is registered for
GET only, so any non-GET request that is not a CORS preflight is not
absorbed by the 200 fallback: the routing layer rejects it with a 405
method-not-allowed response.  Preflight `OPTIONS` requests are the one
exception, answered 200 by the CORS middleware before routing. -/
theorem C8_non_get_non_preflight_rejected_405 (env : Env) (req : Request)
    (hm : req.method ≠ "GET") (hnp : ¬ IsPreflight req) :
    (app env req).status = 405 ∧
    (app env req).body = .obj [("detail", .str "Method Not Allowed")] := by
  have hr : routerApp (loadConfig env) req = .ok methodNotAllowed := by
    unfold routerApp
    rw [if_neg hm]
  exact ⟨(app_router_passthrough env req hnp hr).1, (app_router_passthrough env req hnp hr).2⟩

theorem C8_non_get_non_preflight_rejected_405_witness :
    (app [] ⟨"POST", "/games", "", [], ""⟩).status = 405 ∧
    (app [] ⟨"POST", "/games", "", [], ""⟩).body =
      .obj [("detail", .str "Method Not Allowed")] :=
  C8_non_get_non_preflight_rejected_405 [] ⟨"POST", "/games", "", [], ""⟩
    (by decide) (by decide)

/-- C9: the `API_KEYS` list built at startup by splitting the variable on
commas is never empty: unset yields exactly `["dev-api-key"]`, the empty
string yields exactly `[""]`. -/
theorem C9_api_keys_never_empty (env env1 env2 : Env)
    (h1 : env1.lookup "API_KEYS" = none) (h2 : env2.lookup "API_KEYS" = some "") :
    (loadConfig env).API_KEYS ≠ [] ∧
    (loadConfig env1).API_KEYS = ["dev-api-key"] ∧
    (loadConfig env2).API_KEYS = [""] := by
  refine ⟨pySplit_ne_nil _, ?_, ?_⟩
  · show pySplit (getenv env1 "API_KEYS" "dev-api-key") = ["dev-api-key"]
    unfold getenv
    rw [h1]
    rfl
  · show pySplit (getenv env2 "API_KEYS" "dev-api-key") = [""]
    unfold getenv
    rw [h2]
    rfl

theorem C9_api_keys_never_empty_witness :
    ([] : Env).lookup "API_KEYS" = none ∧
    ([("API_KEYS", "")] : Env).lookup "API_KEYS" = some "" ∧
    ((loadConfig []).API_KEYS ≠ [] ∧
      (loadConfig []).API_KEYS = ["dev-api-key"] ∧
      (loadConfig [("API_KEYS", "")]).API_KEYS = [""]) :=
  ⟨rfl, by decide, C9_api_keys_never_empty [] [] [("API_KEYS", "")] rfl (by decide)⟩

/-- C10: no declared handler can raise: the routing layer succeeds on
every request, so the global exception handler's 500 branch is
unreachable and no response ever has status 500. -/
theorem C10_handlers_never_raise (env : Env) (req : Request) :
    (∃ r, routerApp (loadConfig env) req = .ok r) ∧ (app env req).status ≠ 500 := by
  refine ⟨routerApp_ok _ _, ?_⟩
  rcases app_status_cases env req with h | h | h <;> simp [h]

end GamePathAI
